import Mathlib

/-!
Verification of the les-campai-connector reconciliation pipeline.

This file gives a shallow embedding of the connector's core logic
(`src/les_campai_connector/cli.py` together with the helpers in
`src/les_campai_connector/kc.py` and the data model in
`src/les_campai_connector/campai/model.py`) and settles the frozen claims
about it.

Conventions of the embedding:
* Campai contacts and Keycloak user representations become Lean structures
  mirroring the pydantic models field by field.
* The Keycloak realm is a `Store`: a list of users plus a map from user id
  to the list of group ids the user belongs to.
* Python string operations that the code relies on are modelled over
  `String.data`: `str.lower` maps `Char.toLower` over the characters,
  `str.endswith` is the list-suffix test, and `str.rstrip(chars)` drops
  trailing characters belonging to the character set `chars`.
* `str(x)` applied to an optional email renders `None` as the literal
  string "None", exactly as CPython does; the deduplication key in
  `_do_sync` is built through `str(...)` and the embedding keeps that.
-/

namespace CampaiConnector

/-- `contactMembershipStatus` of `campai/model.py`: the closed enumeration of
membership states. -/
inductive MembershipStatus where
  | hasLeft
  | willLeave
  | isActive
  | willEnter
deriving DecidableEq, Repr

/-- `ContactPersonal` of `campai/model.py`. -/
structure ContactPersonal where
  is_person : Bool
  is_organisation : Bool
  person_first_name : String
  person_last_name : String
deriving DecidableEq, Repr

/-- `ContactCommunication` of `campai/model.py`: the email is optional
(empty strings are normalised to absent by the model validator). -/
structure ContactCommunication where
  email : Option String
deriving DecidableEq, Repr

/-- `ContactMembership` of `campai/model.py`. The `status` field is there in
the source. The `number_sort` field is read by the deduplication loop in
`cli.py` (lines 172-184) but its declaration is not part of the sources
provided; Modelled from the spec: `membershipNumber` is an "optional
ordering key used only for tie-break among duplicates". -/
structure ContactMembership where
  status : Option MembershipStatus
  number_sort : Option Int
deriving DecidableEq, Repr

/-- `Contact` of `campai/model.py` (the fields the sync logic reads). -/
structure Contact where
  id : String
  personal : ContactPersonal
  membership : ContactMembership
  communication : ContactCommunication
deriving DecidableEq, Repr

/-- `MinimalUserRepresentation` of `kc.py`: the parsed Keycloak user. -/
structure KcUser where
  first_name : Option String
  last_name : Option String
  enabled : Bool
  username : String
  id : String
  email : Option String
  email_verified : Bool
  attributes : List (String × List String)
deriving DecidableEq, Repr

/-- `MinimalUpdateUserRepresentation` of `kc.py`. A field whose value is
`none` is *unset* (pydantic `exclude_unset` drops it); the email field can
also be *set to null* (`some none`), which the update dump keeps because it
uses `exclude_none=False`. -/
structure UpdateUser where
  first_name : Option String := none
  last_name : Option String := none
  enabled : Option Bool := none
  username : Option String := none
  email : Option (Option String) := none
  email_verified : Option Bool := none
  attributes : Option (List (String × List String)) := none
deriving DecidableEq, Repr

/-- The Keycloak realm as seen through the admin client: the user list and
the group memberships (`get_user_groups`) keyed by user id. -/
structure Store where
  users : List KcUser
  userGroups : String → List String

/-- `ATTRIBUTE_CAMPAI_ID` of `kc.py`. -/
def ATTRIBUTE_CAMPAI_ID : String := "campai-id"

/-- `NO_MEMBER_SUFFIX` of `kc.py`. -/
def NO_MEMBER_SUFFIX : String := "_nomember"

/-- Python `dict.get` on the parsed `attributes` mapping. -/
def getAttr (attrs : List (String × List String)) (k : String) :
    Option (List String) :=
  (attrs.find? (fun p => p.1 == k)).map (·.2)

/-- Python `str.lower` (ASCII case folding, which is all the code needs). -/
def pyLower (s : String) : String := ⟨s.data.map Char.toLower⟩

/-- Python `str.endswith`: suffix test on the character list. -/
def pyEndsWith (s suffix : String) : Bool :=
  suffix.data.reverse.isPrefixOf s.data.reverse

/-- Python `str.rstrip(chars)`: remove trailing characters that belong to
the character set `chars` (not the literal suffix `chars`). -/
def pyRstrip (s chars : String) : String :=
  ⟨(s.data.reverse.dropWhile (fun ch => chars.data.contains ch)).reverse⟩

/-- `ALLOWED_USERNAME_LETTERS` membership of `cli.py` line 41:
ASCII letters, digits and `.-_`. -/
def isAllowedUsernameChar (ch : Char) : Bool :=
  ch.isAlpha || ch.isDigit || ch == '.' || ch == '-' || ch == '_'

/-- `sanitize_username` of `cli.py` lines 55-68. -/
def sanitize_username (username : String) : String :=
  username.data.foldl
    (fun acc ch =>
      if isAllowedUsernameChar ch then acc.push ch
      else if ch == ' ' then acc.push '_'
      else acc)
    ""

/-- `is_contact_active` of `cli.py` lines 71-72. -/
def isContactActive (c : Contact) : Bool :=
  match c.membership.status with
  | some MembershipStatus.willLeave => true
  | some MembershipStatus.isActive => true
  | _ => false

/-- The single-match rule of `_find_user_by_query` in `kc.py` lines 44-53:
anything other than exactly one hit is treated as "not found". -/
def usersQueryResult (users : List KcUser) : Option KcUser :=
  if users.length = 1 then users.head? else none

/-- `find_user_by_campai_id` of `kc.py` lines 56-57: the Keycloak attribute
query `q=campai-id:<id>` matches users whose attribute value list contains
the id, filtered through the single-match rule. -/
def findUserByCampaiId (s : Store) (cid : String) : Option KcUser :=
  usersQueryResult
    (s.users.filter
      (fun u => ((getAttr u.attributes ATTRIBUTE_CAMPAI_ID).getD []).contains cid))

/-- `find_user_by_email` of `kc.py` lines 60-61: exact email match through
the single-match rule. -/
def findUserByEmail (s : Store) (e : String) : Option KcUser :=
  usersQueryResult (s.users.filter (fun u => u.email == some e))

/-- Modelled from the spec: `kc.find_user_by_username` is called by the
create path (`cli.py` line 364) but is absent from the provided
`src/les_campai_connector/kc.py`; per the spec's identity-store interface it
queries by exact username through the same single-match rule as
`_find_user_by_query`. -/
def findUserByUsername (s : Store) (n : String) : Option KcUser :=
  usersQueryResult (s.users.filter (fun u => u.username == n))

/-- `str(contact.communication.email)` as used for the dedup dictionary key
(`cli.py` lines 166 and 188): CPython renders `None` as "None". -/
def emailKey (c : Contact) : String :=
  match c.communication.email with
  | some e => e
  | none => "None"

/-- Lookup in the `email_to_contact` dictionary. -/
def mapLookup (m : List (String × Contact)) (k : String) : Option Contact :=
  (m.find? (fun p => p.1 == k)).map (·.2)

/-- Insert-or-overwrite with Python dict semantics: overwriting keeps the
original insertion position, a fresh key is appended. -/
def mapInsert (m : List (String × Contact)) (k : String) (c : Contact) :
    List (String × Contact) :=
  if m.any (fun p => p.1 == k) then
    m.map (fun p => if p.1 == k then (k, c) else p)
  else
    m ++ [(k, c)]

/-- One iteration of the deduplication loop of `_do_sync`, `cli.py` lines
160-188, over the accumulator (dictionary, warning count). Contacts that are
not natural persons or are organisations are skipped; an email collision
with both membership numbers present keeps the record with the lower number
(later record wins a tie); a collision with a missing number keeps the
already-stored record and logs a warning. -/
def dedupStep (acc : List (String × Contact) × Nat) (c : Contact) :
    List (String × Contact) × Nat :=
  if !c.personal.is_person || c.personal.is_organisation then acc
  else
    match mapLookup acc.1 (emailKey c) with
    | none => (mapInsert acc.1 (emailKey c) c, acc.2)
    | some existing =>
      match c.membership.number_sort, existing.membership.number_sort with
      | none, _ => (acc.1, acc.2 + 1)
      | _, none => (acc.1, acc.2 + 1)
      | some currentNum, some existingNum =>
        if currentNum > existingNum then acc
        else (mapInsert acc.1 (emailKey c) c, acc.2)

/-- The whole fetch-and-deduplicate stage over the (flattened) pages of
contacts, returning the dictionary and the number of warnings logged. -/
def dedupContacts (cs : List Contact) : List (String × Contact) × Nat :=
  cs.foldl dedupStep ([], 0)

/-- `contacts = list(email_to_contact.values())`, `cli.py` line 192. -/
def pipelineContacts (raw : List Contact) : List Contact :=
  (dedupContacts raw).1.map (·.2)

/-- The `MemberAction` IntFlag of `cli.py` lines 23-35, as a record of
booleans (one per flag bit). -/
@[ext]
structure MemberActions where
  create : Bool := false
  activate : Bool := false
  deactivate : Bool := false
  update_email : Bool := false
  update_first_name : Bool := false
  update_last_name : Bool := false
  add_default_group : Bool := false
  remove_all_groups : Bool := false
  add_campai_id : Bool := false
  remove_no_member_suffix : Bool := false
  add_no_member_suffix : Bool := false
  set_email_validated : Bool := false
deriving DecidableEq, Repr

/-- `NO_ACTION` of `cli.py` line 38. -/
def noAction : MemberActions := {}

/-- Bitwise `|=` on flag sets. -/
def MemberActions.or (a b : MemberActions) : MemberActions where
  create := a.create || b.create
  activate := a.activate || b.activate
  deactivate := a.deactivate || b.deactivate
  update_email := a.update_email || b.update_email
  update_first_name := a.update_first_name || b.update_first_name
  update_last_name := a.update_last_name || b.update_last_name
  add_default_group := a.add_default_group || b.add_default_group
  remove_all_groups := a.remove_all_groups || b.remove_all_groups
  add_campai_id := a.add_campai_id || b.add_campai_id
  remove_no_member_suffix := a.remove_no_member_suffix || b.remove_no_member_suffix
  add_no_member_suffix := a.add_no_member_suffix || b.add_no_member_suffix
  set_email_validated := a.set_email_validated || b.set_email_validated

/-- The flag bundle OR-ed in when a user must be created, `cli.py` lines
218-228. -/
def createBundle : MemberActions where
  create := true
  activate := true
  update_first_name := true
  update_last_name := true
  update_email := true
  add_default_group := true
  add_campai_id := true
  set_email_validated := true

/-- The diff stage for one contact, `cli.py` lines 211-278: given the
resolved Keycloak user (if any) and that user's current groups, compute the
`MemberAction` flag set. -/
def diffFlags (defaultGroupId : String) (c : Contact) (kcUser : Option KcUser)
    (userGroups : List String) : MemberActions :=
  let is_active := isContactActive c
  let a := noAction
  -- lines 218-228: create bundle when active and no Keycloak user was found
  let a := if is_active && !kcUser.isSome then a.or createBundle else a
  match kcUser with
  | none => a
  | some user =>
    -- lines 235-258: activation-dependent flags
    let a :=
      if is_active then
        let a := if !user.enabled then a.or { activate := true } else a
        let a := if !(userGroups.contains defaultGroupId) then
            a.or { add_default_group := true } else a
        let a := if pyEndsWith user.username NO_MEMBER_SUFFIX then
            a.or { remove_no_member_suffix := true } else a
        a
      else
        let a := if user.enabled then a.or { deactivate := true } else a
        let a := if userGroups.length > 0 then
            a.or { remove_all_groups := true } else a
        let a := if !(pyEndsWith user.username NO_MEMBER_SUFFIX) then
            a.or { add_no_member_suffix := true } else a
        a
    -- lines 260-278: flags applying whether or not the user is activated
    let campaiEmail := c.communication.email.map pyLower
    let a := if user.email ≠ campaiEmail then a.or { update_email := true } else a
    let a := if user.first_name ≠ some c.personal.person_first_name then
        a.or { update_first_name := true } else a
    let a := if user.last_name ≠ some c.personal.person_last_name then
        a.or { update_last_name := true } else a
    let a := if !(((getAttr user.attributes ATTRIBUTE_CAMPAI_ID).getD []).contains c.id) then
        a.or { add_campai_id := true } else a
    let a := if !user.email_verified then a.or { set_email_validated := true } else a
    a

/-- `SyncOperation` of `cli.py` lines 44-47. -/
structure SyncOperation where
  kc_user : Option KcUser
  contact : Contact
  actions : MemberActions
deriving DecidableEq, Repr

/-- Resolution of a contact to a Keycloak user, `cli.py` lines 204-209:
by stamped campai id first, then by email when the contact has one. -/
def resolveUser (s : Store) (c : Contact) : Option KcUser :=
  match findUserByCampaiId s c.id with
  | some u => some u
  | none =>
    match c.communication.email with
    | some e => findUserByEmail s e
    | none => none

/-- One iteration of the queue-building loop, `cli.py` lines 203-282:
resolve, diff, and queue the operation when any flag is set. -/
def syncOpFor (defaultGroupId : String) (s : Store) (c : Contact) :
    Option SyncOperation :=
  let kcUser := resolveUser s c
  let gr := match kcUser with
            | some u => s.userGroups u.id
            | none => []
  let a := diffFlags defaultGroupId c kcUser gr
  if a = noAction then none
  else some { kc_user := kcUser, contact := c, actions := a }

/-- The sync queue built over the deduplicated contacts. -/
def buildQueue (defaultGroupId : String) (s : Store) (cs : List Contact) :
    List SyncOperation :=
  cs.filterMap (syncOpFor defaultGroupId s)

/-- The username candidate tried at loop index `idx`, `cli.py` lines
355-361: the base name first, then base plus the decimal index. -/
def candidateUsername (base : String) (idx : Nat) : String :=
  if idx = 0 then base else base ++ toString idx

/-- The collision-probing loop of the create path, `cli.py` lines 355-368,
with explicit fuel (the Python loop is unbounded; the store is finite, so
enough fuel always finds a free name). -/
def probeAux (s : Store) (base : String) : Nat → Nat → Option String
  | 0, _ => none
  | fuel + 1, idx =>
    let username := candidateUsername base idx
    match findUserByUsername s username with
    | none => some username
    | some _ => probeAux s base fuel (idx + 1)

/-- Username probing started at index 0, as the create path does. -/
def probeUsername (s : Store) (base : String) (fuel : Nat) : Option String :=
  probeAux s base fuel 0

/-- `str(contact.communication.email).split("@")[0]`, `cli.py` line 349. -/
def localPart (e : String) : String :=
  (e.splitOn "@").headD ""

/-- Lines 376-412 of `cli.py`: populate the `MinimalUpdateUserRepresentation`
from the flag set. `username0` is the value put into `update_user.username`
beforehand (the probed name on the create path, the sanitized existing
username otherwise). The suffix mutations read the username already derived;
they only ever run for resolved users, for which `username0` is set, so the
embedding maps over the option. -/
def buildPatch (c : Contact) (a : MemberActions) (username0 : Option String) :
    UpdateUser :=
  let p : UpdateUser := { username := username0 }
  let p := if a.activate then { p with enabled := some true } else p
  let p := if a.deactivate then { p with enabled := some false } else p
  let p := if a.update_email then
      { p with email := some (c.communication.email.map pyLower) } else p
  let p := if a.update_first_name then
      { p with first_name := some c.personal.person_first_name } else p
  let p := if a.update_last_name then
      { p with last_name := some c.personal.person_last_name } else p
  let p := if a.add_campai_id then
      { p with attributes := some [(ATTRIBUTE_CAMPAI_ID, [c.id])] } else p
  let p := if a.add_no_member_suffix then
      { p with username := p.username.map (· ++ NO_MEMBER_SUFFIX) } else p
  let p := if a.remove_no_member_suffix then
      { p with username := p.username.map (fun un => pyRstrip un NO_MEMBER_SUFFIX) } else p
  let p := if a.set_email_validated then { p with email_verified := some true } else p
  p

/-- Lines 425-432 of `cli.py`: `update_user_json = sync_op.kc_user` followed
by `update_user_json.update(patch)` — the complete existing representation
with every *set* patch field overwriting the corresponding top-level key
(`attributes` is a single top-level key, so it is replaced wholesale). -/
def applyPatch (u : KcUser) (p : UpdateUser) : KcUser where
  first_name := match p.first_name with
                | some v => some v
                | none => u.first_name
  last_name := match p.last_name with
               | some v => some v
               | none => u.last_name
  enabled := p.enabled.getD u.enabled
  username := p.username.getD u.username
  id := u.id
  email := match p.email with
           | some v => v
           | none => u.email
  email_verified := p.email_verified.getD u.email_verified
  attributes := p.attributes.getD u.attributes

/-- A fresh Keycloak-assigned user id for `create_user`. -/
def freshId (s : Store) : String := "kc-user-" ++ toString s.users.length

/-- `kc_admin.create_user(update_user.model_dump(exclude_none=True))`,
`cli.py` lines 415-419: the created user carries the set patch fields;
unset booleans fall back to the representation defaults. -/
def createdUser (s : Store) (p : UpdateUser) : KcUser where
  first_name := p.first_name
  last_name := p.last_name
  enabled := p.enabled.getD false
  username := p.username.getD ""
  id := freshId s
  email := (p.email.getD none)
  email_verified := p.email_verified.getD false
  attributes := p.attributes.getD []

/-- Replace the stored user carrying `uid` (`kc_admin.update_user`). -/
def updateStoredUser (s : Store) (uid : String) (u2 : KcUser) : Store :=
  { s with users := s.users.map (fun x => if x.id = uid then u2 else x) }

/-- Append a newly created user to the realm. -/
def addStoredUser (s : Store) (u2 : KcUser) : Store :=
  { s with users := s.users ++ [u2] }

/-- `kc_admin.group_user_add(user_id, group_id)`. -/
def addUserGroup (s : Store) (uid gid : String) : Store :=
  { s with userGroups := fun x => if x = uid then s.userGroups x ++ [gid] else s.userGroups x }

/-- Remove every group of the user (`cli.py` lines 439-443). -/
def clearUserGroups (s : Store) (uid : String) : Store :=
  { s with userGroups := fun x => if x = uid then [] else s.userGroups x }

/-- Execution of one queued operation, `cli.py` lines 332-443. The create
path skips the record when the email is missing (lines 341-346); otherwise
it probes for a free username, creates the user, and performs the group
intents; the update path patches the snapshot taken at queue-build time and
then performs the group intents. -/
def execOp (defaultGroupId : String) (s : Store) (op : SyncOperation) : Store :=
  if op.actions.create then
    match op.contact.communication.email with
    | none => s
    | some e =>
      let base := sanitize_username (localPart e)
      match probeUsername s base (s.users.length + 1) with
      | none => s
      | some un =>
        let p := buildPatch op.contact op.actions (some un)
        let nu := createdUser s p
        let s1 := addStoredUser s nu
        let s2 := if op.actions.add_default_group then addUserGroup s1 nu.id defaultGroupId else s1
        if op.actions.remove_all_groups then clearUserGroups s2 nu.id else s2
  else
    match op.kc_user with
    | none => s
    | some u0 =>
      let p := buildPatch op.contact op.actions (some (sanitize_username u0.username))
      let u2 := applyPatch u0 p
      let s1 := updateStoredUser s u0.id u2
      let s2 := if op.actions.add_default_group then addUserGroup s1 u0.id defaultGroupId else s1
      if op.actions.remove_all_groups then clearUserGroups s2 u0.id else s2

/-- The execution loop over the queue. -/
def runQueue (defaultGroupId : String) (s : Store) (q : List SyncOperation) : Store :=
  q.foldl (execOp defaultGroupId) s

/-- One full reconciliation run: deduplicate, build the queue against the
current store, execute it. -/
def runPipeline (defaultGroupId : String) (s : Store) (raw : List Contact) : Store :=
  runQueue defaultGroupId s (buildQueue defaultGroupId s (pipelineContacts raw))

/-- The operation set a second run would compute after the first run's
executed operations mutated the store. -/
def secondRunQueue (defaultGroupId : String) (s : Store) (raw : List Contact) :
    List SyncOperation :=
  buildQueue defaultGroupId (runPipeline defaultGroupId s raw) (pipelineContacts raw)

/-- The shape of the execution loop of `cli.py` lines 332-443 with the
store interaction abstracted as a fallible call: the loop body contains no
try/except, so an error raised while executing one operation propagates and
ends the loop. -/
def runQueueExc {α σ ε : Type} (exec : α → σ → Except ε σ) :
    List α → σ → Except ε σ
  | [], s => Except.ok s
  | op :: rest, s =>
    match exec op s with
    | Except.ok s2 => runQueueExc exec rest s2
    | Except.error e => Except.error e

/-- The heartbeat signal sent by the `sync` command, `cli.py` lines 449-459. -/
inductive Heartbeat where
  | up
  | down
deriving DecidableEq, Repr

/-- `sync` of `cli.py` lines 449-459: `_do_sync` runs under a run-level
try/except; an uncaught error anywhere in the batch yields the "down"
signal. -/
def runSyncHeartbeat {α σ ε : Type} (exec : α → σ → Except ε σ)
    (q : List α) (s : σ) : Heartbeat :=
  match runQueueExc exec q s with
  | Except.ok _ => Heartbeat.up
  | Except.error _ => Heartbeat.down

/-! ### Concrete fixtures used by witnesses and counterexamples -/

/-- An active natural person with no email address. -/
def contactNoEmail : Contact where
  id := "c0"
  personal := { is_person := true, is_organisation := false,
                person_first_name := "A", person_last_name := "B" }
  membership := { status := some MembershipStatus.isActive, number_sort := none }
  communication := { email := none }

/-- The empty Keycloak realm. -/
def emptyStore : Store := { users := [], userGroups := fun _ => [] }

/-- A Keycloak user fully in sync with `contactSynced`. -/
def userSynced : KcUser where
  first_name := some "A"
  last_name := some "B"
  enabled := true
  username := "ab"
  id := "u1"
  email := some "a@b.c"
  email_verified := true
  attributes := [("campai-id", ["c1"])]

/-- The contact matching `userSynced` in every compared field. -/
def contactSynced : Contact where
  id := "c1"
  personal := { is_person := true, is_organisation := false,
                person_first_name := "A", person_last_name := "B" }
  membership := { status := some MembershipStatus.isActive, number_sort := none }
  communication := { email := some "a@b.c" }

/-- A single-user realm where that user already belongs to group g1. -/
def storeSynced : Store := { users := [userSynced], userGroups := fun _ => ["g1"] }

/-- An active natural-person contact with the given id, email and
membership number (used to build deduplication scenarios). -/
def mkContact (cid : String) (email : Option String) (num : Option Int) : Contact where
  id := cid
  personal := { is_person := true, is_organisation := false,
                person_first_name := "F", person_last_name := "L" }
  membership := { status := some MembershipStatus.isActive, number_sort := num }
  communication := { email := email }

/-- An organisation record (not a natural person target). -/
def contactOrg : Contact where
  id := "org1"
  personal := { is_person := true, is_organisation := true,
                person_first_name := "O", person_last_name := "Rg" }
  membership := { status := some MembershipStatus.isActive, number_sort := some 1 }
  communication := { email := some "org@x.y" }

/-- A stored account whose email differs from the source only by letter
case, with every other compared field in sync with `contactLowerEmail`. -/
def userUpperEmail : KcUser where
  first_name := some "A"
  last_name := some "B"
  enabled := true
  username := "ab"
  id := "u5"
  email := some "A@b.c"
  email_verified := true
  attributes := [("campai-id", ["c5"])]

/-- The contact whose email matches `userUpperEmail` up to case. -/
def contactLowerEmail : Contact where
  id := "c5"
  personal := { is_person := true, is_organisation := false,
                person_first_name := "A", person_last_name := "B" }
  membership := { status := some MembershipStatus.isActive, number_sort := none }
  communication := { email := some "a@b.c" }

/-- A stored account holding an outdated (lowercase) email. -/
def userOldEmail : KcUser where
  first_name := some "A"
  last_name := some "B"
  enabled := true
  username := "ab"
  id := "u5w"
  email := some "old@x.y"
  email_verified := true
  attributes := [("campai-id", ["c5w"])]

/-- The contact carrying the new email with mixed case. -/
def contactNewEmail : Contact where
  id := "c5w"
  personal := { is_person := true, is_organisation := false,
                person_first_name := "A", person_last_name := "B" }
  membership := { status := some MembershipStatus.isActive, number_sort := none }
  communication := { email := some "New@x.y" }

/-- A user in the realm taking the username "jdoe". -/
def userJdoe : KcUser where
  first_name := some "J"
  last_name := some "D"
  enabled := true
  username := "jdoe"
  id := "u6"
  email := some "j@x.y"
  email_verified := true
  attributes := []

/-- A realm in which only "jdoe" is taken. -/
def storeJdoe : Store := { users := [userJdoe], userGroups := fun _ => [] }

/-- A stored account carrying an unrelated attribute key. -/
def userOtherAttr : KcUser where
  first_name := some "A"
  last_name := some "B"
  enabled := true
  username := "ab"
  id := "u8"
  email := some "a8@x.y"
  email_verified := true
  attributes := [("other", ["v"])]

/-- A stored account whose username ends with the no-member suffix. -/
def userNomember : KcUser where
  first_name := some "J"
  last_name := some "D"
  enabled := false
  username := "jdoe_nomember"
  id := "u9"
  email := some "j9@x.y"
  email_verified := true
  attributes := []

/-- A fallible per-operation executor over a log of executed operations:
operation 0 always raises, any other operation appends itself to the log. -/
def execLog (n : Nat) (log : List Nat) : Except Nat (List Nat) :=
  if n = 0 then Except.error 0 else Except.ok (log ++ [n])

end CampaiConnector

namespace CampaiConnector

/-! ### Library lemmas about the Python string operations -/

theorem dropWhile_head_false {α : Type} (p : α → Bool) :
    ∀ (l : List α) (x : α) (xs : List α), l.dropWhile p = x :: xs → p x = false := by
  intro l
  induction l with
  | nil => intro x xs h; simp [List.dropWhile] at h
  | cons a tl ih =>
    intro x xs h
    rw [List.dropWhile_cons] at h
    by_cases ha : p a = true
    · rw [if_pos ha] at h; exact ih x xs h
    · rw [if_neg ha] at h
      obtain ⟨rfl, _⟩ := List.cons.inj h
      simpa using ha

theorem pyEndsWith_append (a b : String) : pyEndsWith (a ++ b) b = true := by
  rw [pyEndsWith, List.isPrefixOf_iff_prefix, String.data_append, List.reverse_append]
  exact List.prefix_append _ _

theorem pyRstrip_nomember_not_endsWith (s : String) :
    pyEndsWith (pyRstrip s NO_MEMBER_SUFFIX) NO_MEMBER_SUFFIX = false := by
  rw [Bool.eq_false_iff]
  intro h
  rw [pyEndsWith, List.isPrefixOf_iff_prefix, pyRstrip] at h
  rw [List.reverse_reverse] at h
  obtain ⟨t, ht⟩ := h
  have hsuf : NO_MEMBER_SUFFIX.data.reverse =
      'r' :: ['e', 'b', 'm', 'e', 'm', 'o', 'n', '_'] := by decide
  rw [hsuf, List.cons_append] at ht
  have hhead := dropWhile_head_false
    (fun ch => NO_MEMBER_SUFFIX.data.contains ch) s.data.reverse 'r' _ ht.symm
  simp [NO_MEMBER_SUFFIX] at hhead

/-! ### Projection lemmas for the update patch -/

theorem bp_first_name (c : Contact) (a : MemberActions) (u0 : Option String) :
    (buildPatch c a u0).first_name =
      if a.update_first_name then some c.personal.person_first_name else none := by
  simp [buildPatch, apply_ite UpdateUser.first_name]

theorem bp_last_name (c : Contact) (a : MemberActions) (u0 : Option String) :
    (buildPatch c a u0).last_name =
      if a.update_last_name then some c.personal.person_last_name else none := by
  simp [buildPatch, apply_ite UpdateUser.last_name]

theorem bp_enabled (c : Contact) (a : MemberActions) (u0 : Option String) :
    (buildPatch c a u0).enabled =
      if a.deactivate then some false else if a.activate then some true else none := by
  simp [buildPatch, apply_ite UpdateUser.enabled]

theorem bp_email (c : Contact) (a : MemberActions) (u0 : Option String) :
    (buildPatch c a u0).email =
      if a.update_email then some (c.communication.email.map pyLower) else none := by
  simp [buildPatch, apply_ite UpdateUser.email]

theorem bp_email_verified (c : Contact) (a : MemberActions) (u0 : Option String) :
    (buildPatch c a u0).email_verified =
      if a.set_email_validated then some true else none := by
  simp [buildPatch, apply_ite UpdateUser.email_verified]

theorem bp_attributes (c : Contact) (a : MemberActions) (u0 : Option String) :
    (buildPatch c a u0).attributes =
      if a.add_campai_id then some [(ATTRIBUTE_CAMPAI_ID, [c.id])] else none := by
  simp [buildPatch, apply_ite UpdateUser.attributes]

theorem bp_username (c : Contact) (a : MemberActions) (u0 : Option String) :
    (buildPatch c a u0).username =
      (fun u1 => if a.remove_no_member_suffix then
          u1.map (fun un => pyRstrip un NO_MEMBER_SUFFIX) else u1)
        (if a.add_no_member_suffix then u0.map (· ++ NO_MEMBER_SUFFIX) else u0) := by
  simp [buildPatch, apply_ite UpdateUser.username]

/-! ### Projection lemmas for the diff stage -/

theorem dfs_none (g : String) (c : Contact) (gr : List String) :
    diffFlags g c none gr = if isContactActive c then createBundle else noAction := by
  simp [diffFlags, MemberActions.or, noAction, createBundle]

theorem dfs_create (g : String) (c : Contact) (u : KcUser) (gr : List String) :
    (diffFlags g c (some u) gr).create = false := by
  simp [diffFlags, apply_ite MemberActions.create, MemberActions.or, noAction, createBundle]

theorem dfs_activate (g : String) (c : Contact) (u : KcUser) (gr : List String) :
    (diffFlags g c (some u) gr).activate = true ↔
      isContactActive c = true ∧ u.enabled = false := by
  simp [diffFlags, apply_ite MemberActions.activate, MemberActions.or, noAction, createBundle]

theorem dfs_deactivate (g : String) (c : Contact) (u : KcUser) (gr : List String) :
    (diffFlags g c (some u) gr).deactivate = true ↔
      isContactActive c = false ∧ u.enabled = true := by
  simp [diffFlags, apply_ite MemberActions.deactivate, MemberActions.or, noAction, createBundle]

theorem dfs_update_email (g : String) (c : Contact) (u : KcUser) (gr : List String) :
    (diffFlags g c (some u) gr).update_email = true ↔
      u.email ≠ c.communication.email.map pyLower := by
  simp [diffFlags, apply_ite MemberActions.update_email, MemberActions.or, noAction, createBundle]

theorem dfs_update_first_name (g : String) (c : Contact) (u : KcUser) (gr : List String) :
    (diffFlags g c (some u) gr).update_first_name = true ↔
      u.first_name ≠ some c.personal.person_first_name := by
  simp [diffFlags, apply_ite MemberActions.update_first_name, MemberActions.or, noAction,
    createBundle]

theorem dfs_update_last_name (g : String) (c : Contact) (u : KcUser) (gr : List String) :
    (diffFlags g c (some u) gr).update_last_name = true ↔
      u.last_name ≠ some c.personal.person_last_name := by
  simp [diffFlags, apply_ite MemberActions.update_last_name, MemberActions.or, noAction,
    createBundle]

theorem dfs_add_default_group (g : String) (c : Contact) (u : KcUser) (gr : List String) :
    (diffFlags g c (some u) gr).add_default_group = true ↔
      isContactActive c = true ∧ gr.contains g = false := by
  simp [diffFlags, apply_ite MemberActions.add_default_group, MemberActions.or, noAction,
    createBundle]

theorem dfs_remove_all_groups (g : String) (c : Contact) (u : KcUser) (gr : List String) :
    (diffFlags g c (some u) gr).remove_all_groups = true ↔
      isContactActive c = false ∧ gr ≠ [] := by
  simp [diffFlags, apply_ite MemberActions.remove_all_groups, MemberActions.or, noAction,
    createBundle, List.length_pos]

theorem dfs_add_campai_id (g : String) (c : Contact) (u : KcUser) (gr : List String) :
    (diffFlags g c (some u) gr).add_campai_id = true ↔
      ((getAttr u.attributes ATTRIBUTE_CAMPAI_ID).getD []).contains c.id = false := by
  simp [diffFlags, apply_ite MemberActions.add_campai_id, MemberActions.or, noAction,
    createBundle]

theorem dfs_remove_no_member_suffix (g : String) (c : Contact) (u : KcUser) (gr : List String) :
    (diffFlags g c (some u) gr).remove_no_member_suffix = true ↔
      isContactActive c = true ∧ pyEndsWith u.username NO_MEMBER_SUFFIX = true := by
  simp [diffFlags, apply_ite MemberActions.remove_no_member_suffix, MemberActions.or, noAction,
    createBundle]

theorem dfs_add_no_member_suffix (g : String) (c : Contact) (u : KcUser) (gr : List String) :
    (diffFlags g c (some u) gr).add_no_member_suffix = true ↔
      isContactActive c = false ∧ pyEndsWith u.username NO_MEMBER_SUFFIX = false := by
  simp [diffFlags, apply_ite MemberActions.add_no_member_suffix, MemberActions.or, noAction,
    createBundle]

theorem dfs_set_email_validated (g : String) (c : Contact) (u : KcUser) (gr : List String) :
    (diffFlags g c (some u) gr).set_email_validated = true ↔
      u.email_verified = false := by
  simp [diffFlags, apply_ite MemberActions.set_email_validated, MemberActions.or, noAction,
    createBundle]

/-! ### The patched user, field by field -/

theorem patched_id (c : Contact) (a : MemberActions) (u0 : Option String) (u : KcUser) :
    (applyPatch u (buildPatch c a u0)).id = u.id := by
  simp [applyPatch]

theorem patched_first_name (c : Contact) (a : MemberActions) (u0 : Option String) (u : KcUser) :
    (applyPatch u (buildPatch c a u0)).first_name =
      if a.update_first_name then some c.personal.person_first_name else u.first_name := by
  by_cases h : a.update_first_name = true <;> simp [applyPatch, bp_first_name, h]

theorem patched_last_name (c : Contact) (a : MemberActions) (u0 : Option String) (u : KcUser) :
    (applyPatch u (buildPatch c a u0)).last_name =
      if a.update_last_name then some c.personal.person_last_name else u.last_name := by
  by_cases h : a.update_last_name = true <;> simp [applyPatch, bp_last_name, h]

theorem patched_enabled (c : Contact) (a : MemberActions) (u0 : Option String) (u : KcUser) :
    (applyPatch u (buildPatch c a u0)).enabled =
      if a.deactivate then false else if a.activate then true else u.enabled := by
  by_cases h1 : a.deactivate = true <;> by_cases h2 : a.activate = true <;>
    simp [applyPatch, bp_enabled, h1, h2]

theorem patched_email (c : Contact) (a : MemberActions) (u0 : Option String) (u : KcUser) :
    (applyPatch u (buildPatch c a u0)).email =
      if a.update_email then c.communication.email.map pyLower else u.email := by
  by_cases h : a.update_email = true <;> simp [applyPatch, bp_email, h]

theorem patched_email_verified (c : Contact) (a : MemberActions) (u0 : Option String)
    (u : KcUser) :
    (applyPatch u (buildPatch c a u0)).email_verified =
      if a.set_email_validated then true else u.email_verified := by
  by_cases h : a.set_email_validated = true <;> simp [applyPatch, bp_email_verified, h]

theorem patched_attributes (c : Contact) (a : MemberActions) (u0 : Option String) (u : KcUser) :
    (applyPatch u (buildPatch c a u0)).attributes =
      if a.add_campai_id then [(ATTRIBUTE_CAMPAI_ID, [c.id])] else u.attributes := by
  by_cases h : a.add_campai_id = true <;> simp [applyPatch, bp_attributes, h]

theorem patched_username (c : Contact) (a : MemberActions) (un : String) (u : KcUser) :
    (applyPatch u (buildPatch c a (some un))).username =
      (fun u1 => if a.remove_no_member_suffix then pyRstrip u1 NO_MEMBER_SUFFIX else u1)
        (if a.add_no_member_suffix then un ++ NO_MEMBER_SUFFIX else un) := by
  by_cases h1 : a.remove_no_member_suffix = true <;>
    by_cases h2 : a.add_no_member_suffix = true <;>
    simp [applyPatch, bp_username, h1, h2]

/-! ### Store-level helper lemmas -/

theorem resolveUser_single (s : Store) (c : Contact) (u2 : KcUser)
    (husers : s.users = [u2])
    (hmem : ((getAttr u2.attributes ATTRIBUTE_CAMPAI_ID).getD []).contains c.id = true) :
    resolveUser s c = some u2 := by
  have hm : c.id ∈ (getAttr u2.attributes ATTRIBUTE_CAMPAI_ID).getD [] := by
    simpa using hmem
  simp [resolveUser, findUserByCampaiId, usersQueryResult, husers, hm]

theorem execOp_update (g : String) (s : Store) (c : Contact) (u : KcUser) (a : MemberActions)
    (hcr : a.create = false) :
    execOp g s { kc_user := some u, contact := c, actions := a } =
      (let p := buildPatch c a (some (sanitize_username u.username))
       let u2 := applyPatch u p
       let s1 := updateStoredUser s u.id u2
       let s2 := if a.add_default_group then addUserGroup s1 u.id g else s1
       if a.remove_all_groups then clearUserGroups s2 u.id else s2) := by
  simp [execOp, hcr]

theorem users_groupOps (s1 : Store) (bA bR : Bool) (uid gid : String) :
    (if bR then clearUserGroups (if bA then addUserGroup s1 uid gid else s1) uid
     else (if bA then addUserGroup s1 uid gid else s1)).users = s1.users := by
  by_cases hA : bA <;> by_cases hR : bR <;> simp [hA, hR, addUserGroup, clearUserGroups]

theorem ug_groupOps (s1 : Store) (bA bR : Bool) (uid gid : String) :
    (if bR then clearUserGroups (if bA then addUserGroup s1 uid gid else s1) uid
     else (if bA then addUserGroup s1 uid gid else s1)).userGroups uid =
      if bR then [] else if bA then s1.userGroups uid ++ [gid] else s1.userGroups uid := by
  by_cases hA : bA <;> by_cases hR : bR <;> simp [hA, hR, addUserGroup, clearUserGroups]

/-- A diff that finds every compared aspect already converged produces the
empty flag set. -/
theorem flags_clear_core (g : String) (c : Contact) (u2 : KcUser) (gr2 : List String)
    (h1 : isContactActive c = true → u2.enabled = true)
    (h2 : isContactActive c = false → u2.enabled = false)
    (h3 : u2.email = c.communication.email.map pyLower)
    (h4 : u2.first_name = some c.personal.person_first_name)
    (h5 : u2.last_name = some c.personal.person_last_name)
    (h6 : isContactActive c = true → gr2.contains g = true)
    (h7 : isContactActive c = false → gr2 = [])
    (h8 : ((getAttr u2.attributes ATTRIBUTE_CAMPAI_ID).getD []).contains c.id = true)
    (h9 : isContactActive c = true → pyEndsWith u2.username NO_MEMBER_SUFFIX = false)
    (h10 : isContactActive c = false → pyEndsWith u2.username NO_MEMBER_SUFFIX = true)
    (h11 : u2.email_verified = true) :
    diffFlags g c (some u2) gr2 = noAction := by
  have hnoact : ∀ b : MemberActions, b = noAction ↔
      (b.create = false ∧ b.activate = false ∧ b.deactivate = false ∧
       b.update_email = false ∧ b.update_first_name = false ∧ b.update_last_name = false ∧
       b.add_default_group = false ∧ b.remove_all_groups = false ∧ b.add_campai_id = false ∧
       b.remove_no_member_suffix = false ∧ b.add_no_member_suffix = false ∧
       b.set_email_validated = false) := by
    intro b
    constructor
    · rintro rfl
      exact ⟨rfl, rfl, rfl, rfl, rfl, rfl, rfl, rfl, rfl, rfl, rfl, rfl⟩
    · rintro ⟨hc1, hc2, hc3, hc4, hc5, hc6, hc7, hc8, hc9, hc10, hc11, hc12⟩
      ext <;> simp_all [noAction]
  rw [hnoact]
  refine ⟨dfs_create g c u2 gr2, ?_, ?_, ?_, ?_, ?_, ?_, ?_, ?_, ?_, ?_, ?_⟩
  · rw [Bool.eq_false_iff, Ne, dfs_activate]
    rintro ⟨hA, hE⟩
    rw [h1 hA] at hE
    cases hE
  · rw [Bool.eq_false_iff, Ne, dfs_deactivate]
    rintro ⟨hA, hE⟩
    rw [h2 hA] at hE
    cases hE
  · rw [Bool.eq_false_iff, Ne, dfs_update_email]
    intro hne
    exact hne h3
  · rw [Bool.eq_false_iff, Ne, dfs_update_first_name]
    intro hne
    exact hne h4
  · rw [Bool.eq_false_iff, Ne, dfs_update_last_name]
    intro hne
    exact hne h5
  · rw [Bool.eq_false_iff, Ne, dfs_add_default_group]
    rintro ⟨hA, hG⟩
    rw [h6 hA] at hG
    cases hG
  · rw [Bool.eq_false_iff, Ne, dfs_remove_all_groups]
    rintro ⟨hA, hG⟩
    exact hG (h7 hA)
  · rw [Bool.eq_false_iff, Ne, dfs_add_campai_id]
    intro hcontra
    rw [h8] at hcontra
    cases hcontra
  · rw [Bool.eq_false_iff, Ne, dfs_remove_no_member_suffix]
    rintro ⟨hA, hS⟩
    rw [h9 hA] at hS
    cases hS
  · rw [Bool.eq_false_iff, Ne, dfs_add_no_member_suffix]
    rintro ⟨hA, hS⟩
    rw [h10 hA] at hS
    cases hS
  · rw [Bool.eq_false_iff, Ne, dfs_set_email_validated]
    intro hcontra
    rw [h11] at hcontra
    cases hcontra

/-- The probing loop returns the first untaken candidate, scanning indices
in increasing order. -/
theorem probeAux_first_free (s : Store) (base : String) :
    ∀ (fuel idx n : Nat), idx ≤ n → n < idx + fuel →
      findUserByUsername s (candidateUsername base n) = none →
      (∀ m, idx ≤ m → m < n → (findUserByUsername s (candidateUsername base m)).isSome = true) →
      probeAux s base fuel idx = some (candidateUsername base n) := by
  intro fuel
  induction fuel with
  | zero =>
    intro idx n h1 h2 _ _
    omega
  | succ f ih =>
    intro idx n h1 h2 hfree htaken
    cases hfind : findUserByUsername s (candidateUsername base idx) with
    | none =>
      have hidx : idx = n := by
        by_contra hne
        have hlt : idx < n := lt_of_le_of_ne h1 hne
        have hsome := htaken idx le_rfl hlt
        rw [hfind] at hsome
        simp at hsome
      subst hidx
      simp [probeAux, hfind]
    | some w =>
      have hlt : idx < n := by
        rcases eq_or_lt_of_le h1 with rfl | h
        · rw [hfind] at hfree
          cases hfree
        · exact h
      have hrest := ih (idx + 1) n hlt (by omega) hfree
        (fun m hm1 hm2 => htaken m (by omega) hm2)
      simp [probeAux, hfind, hrest]

/-! ### Claim theorems -/

/-- C1 (amended): idempotence holds on the update path — for a snapshot
deduplicating to a single record that resolves to the single stored account
whose username is sanitizer-stable, running the pipeline a second time
against the store mutated by the first run plans an empty operation set.
(As stated over every snapshot and store the claim fails: see the
counterexample, where a record planned for creation without an email is
skipped at execution and re-planned identically on every run.) -/
theorem c1_update_path_second_run_empty (g : String) (c : Contact) (u : KcUser) (s : Store)
    (hp : c.personal.is_person = true) (ho : c.personal.is_organisation = false)
    (hu : s.users = [u]) (hres : resolveUser s c = some u)
    (hsan : sanitize_username u.username = u.username) :
    secondRunQueue g s [c] = [] := by
  have hpc : pipelineContacts [c] = [c] := by
    simp [pipelineContacts, dedupContacts, dedupStep, hp, ho, mapLookup, mapInsert]
  unfold secondRunQueue runPipeline
  rw [hpc]
  by_cases h0 : diffFlags g c (some u) (s.userGroups u.id) = noAction
  · have hq : buildQueue g s [c] = [] := by
      simp [buildQueue, syncOpFor, hres, h0]
    rw [hq]
    simpa [runQueue] using hq
  · have hq : buildQueue g s [c] =
        [{ kc_user := some u, contact := c,
           actions := diffFlags g c (some u) (s.userGroups u.id) }] := by
      simp [buildQueue, syncOpFor, hres, h0]
    rw [hq]
    simp only [runQueue, List.foldl_cons, List.foldl_nil]
    set gr := s.userGroups u.id with hgrdef
    set a := diffFlags g c (some u) gr with hadef
    -- run-1 characterisations of the flag set
    have ha_act : a.activate = true ↔ isContactActive c = true ∧ u.enabled = false := by
      rw [hadef]; exact dfs_activate g c u gr
    have ha_dea : a.deactivate = true ↔ isContactActive c = false ∧ u.enabled = true := by
      rw [hadef]; exact dfs_deactivate g c u gr
    have ha_em : a.update_email = true ↔ u.email ≠ c.communication.email.map pyLower := by
      rw [hadef]; exact dfs_update_email g c u gr
    have ha_fn : a.update_first_name = true ↔
        u.first_name ≠ some c.personal.person_first_name := by
      rw [hadef]; exact dfs_update_first_name g c u gr
    have ha_ln : a.update_last_name = true ↔
        u.last_name ≠ some c.personal.person_last_name := by
      rw [hadef]; exact dfs_update_last_name g c u gr
    have ha_adg : a.add_default_group = true ↔
        isContactActive c = true ∧ gr.contains g = false := by
      rw [hadef]; exact dfs_add_default_group g c u gr
    have ha_ral : a.remove_all_groups = true ↔
        isContactActive c = false ∧ gr ≠ [] := by
      rw [hadef]; exact dfs_remove_all_groups g c u gr
    have ha_aci : a.add_campai_id = true ↔
        ((getAttr u.attributes ATTRIBUTE_CAMPAI_ID).getD []).contains c.id = false := by
      rw [hadef]; exact dfs_add_campai_id g c u gr
    have ha_rs : a.remove_no_member_suffix = true ↔
        isContactActive c = true ∧ pyEndsWith u.username NO_MEMBER_SUFFIX = true := by
      rw [hadef]; exact dfs_remove_no_member_suffix g c u gr
    have ha_as : a.add_no_member_suffix = true ↔
        isContactActive c = false ∧ pyEndsWith u.username NO_MEMBER_SUFFIX = false := by
      rw [hadef]; exact dfs_add_no_member_suffix g c u gr
    have ha_sev : a.set_email_validated = true ↔ u.email_verified = false := by
      rw [hadef]; exact dfs_set_email_validated g c u gr
    have hcr : a.create = false := by rw [hadef]; exact dfs_create g c u gr
    rw [execOp_update g s c u a hcr]
    rw [hsan]
    set u2 := applyPatch u (buildPatch c a (some u.username)) with hu2def
    set s1 := updateStoredUser s u.id u2 with hs1def
    show buildQueue g
      (if a.remove_all_groups then
        clearUserGroups (if a.add_default_group then addUserGroup s1 u.id g else s1) u.id
       else (if a.add_default_group then addUserGroup s1 u.id g else s1)) [c] = []
    set s3 := (if a.remove_all_groups then
        clearUserGroups (if a.add_default_group then addUserGroup s1 u.id g else s1) u.id
       else (if a.add_default_group then addUserGroup s1 u.id g else s1)) with hs3def
    have husers1 : s1.users = [u2] := by
      simp [hs1def, updateStoredUser, hu]
    have husers3 : s3.users = [u2] := by
      rw [hs3def, users_groupOps, husers1]
    have hgr3 : s3.userGroups u.id = (if a.remove_all_groups then []
        else if a.add_default_group then gr ++ [g] else gr) := by
      rw [hs3def, ug_groupOps]
      rfl
    have hid2 : u2.id = u.id := by rw [hu2def]; exact patched_id c a (some u.username) u
    -- field-level facts about the patched user
    have hf_en_act : isContactActive c = true → u2.enabled = true := by
      intro hA
      rw [hu2def, patched_enabled]
      by_cases hdd : a.deactivate = true
      · exact absurd (ha_dea.mp hdd).1 (by simp [hA])
      · by_cases hac : a.activate = true
        · simp [hdd, hac]
        · have hen : u.enabled = true := by
            cases he : u.enabled with
            | false => exact absurd (ha_act.mpr ⟨hA, he⟩) hac
            | true => rfl
          simp [hdd, hac, hen]
    have hf_en_inact : isContactActive c = false → u2.enabled = false := by
      intro hA
      rw [hu2def, patched_enabled]
      by_cases hdd : a.deactivate = true
      · simp [hdd]
      · have hen : u.enabled = false := by
          cases he : u.enabled with
          | true => exact absurd (ha_dea.mpr ⟨hA, he⟩) hdd
          | false => rfl
        have hac : a.activate = false := by
          cases hc2 : a.activate with
          | true => exact absurd ((ha_act.mp hc2).1) (by simp [hA])
          | false => rfl
        simp [hdd, hac, hen]
    have hf_email : u2.email = c.communication.email.map pyLower := by
      rw [hu2def, patched_email]
      by_cases hem : a.update_email = true
      · simp [hem]
      · have heq : u.email = c.communication.email.map pyLower := by
          by_contra hne
          exact hem (ha_em.mpr hne)
        simp [hem, heq]
    have hf_fn : u2.first_name = some c.personal.person_first_name := by
      rw [hu2def, patched_first_name]
      by_cases hfn : a.update_first_name = true
      · simp [hfn]
      · have heq : u.first_name = some c.personal.person_first_name := by
          by_contra hne
          exact hfn (ha_fn.mpr hne)
        simp [hfn, heq]
    have hf_ln : u2.last_name = some c.personal.person_last_name := by
      rw [hu2def, patched_last_name]
      by_cases hln : a.update_last_name = true
      · simp [hln]
      · have heq : u.last_name = some c.personal.person_last_name := by
          by_contra hne
          exact hln (ha_ln.mpr hne)
        simp [hln, heq]
    have hf_gr_act : isContactActive c = true → (s3.userGroups u.id).contains g = true := by
      intro hA
      rw [hgr3]
      have hral : a.remove_all_groups = false := by
        cases hr : a.remove_all_groups with
        | true => exact absurd ((ha_ral.mp hr).1) (by simp [hA])
        | false => rfl
      by_cases hadg : a.add_default_group = true
      · simp [hral, hadg]
      · have hcg : gr.contains g = true := by
          cases hg : gr.contains g with
          | false => exact absurd (ha_adg.mpr ⟨hA, hg⟩) hadg
          | true => rfl
        have hmem : g ∈ gr := by simpa using hcg
        simp [hral, hadg, hmem]
    have hf_gr_inact : isContactActive c = false → s3.userGroups u.id = [] := by
      intro hA
      rw [hgr3]
      have hadg : a.add_default_group = false := by
        cases hg : a.add_default_group with
        | true => exact absurd ((ha_adg.mp hg).1) (by simp [hA])
        | false => rfl
      by_cases hral : a.remove_all_groups = true
      · simp [hral]
      · have hnil : gr = [] := by
          by_contra hne
          exact hral (ha_ral.mpr ⟨hA, hne⟩)
        simp [hral, hadg, hnil]
    have hf_attr : ((getAttr u2.attributes ATTRIBUTE_CAMPAI_ID).getD []).contains c.id = true := by
      rw [hu2def, patched_attributes]
      by_cases haci : a.add_campai_id = true
      · simp [haci, getAttr]
      · have hcc : ((getAttr u.attributes ATTRIBUTE_CAMPAI_ID).getD []).contains c.id = true := by
          cases hcont : ((getAttr u.attributes ATTRIBUTE_CAMPAI_ID).getD []).contains c.id with
          | false => exact absurd (ha_aci.mpr hcont) haci
          | true => rfl
        have hmem : c.id ∈ (getAttr u.attributes ATTRIBUTE_CAMPAI_ID).getD [] := by
          simpa using hcc
        simp [haci, hmem]
    have hf_suf_act : isContactActive c = true →
        pyEndsWith u2.username NO_MEMBER_SUFFIX = false := by
      intro hA
      rw [hu2def, patched_username]
      have has2 : a.add_no_member_suffix = false := by
        cases hx : a.add_no_member_suffix with
        | true => exact absurd ((ha_as.mp hx).1) (by simp [hA])
        | false => rfl
      by_cases hrs : a.remove_no_member_suffix = true
      · simp only [has2, hrs]
        simp [pyRstrip_nomember_not_endsWith]
      · have hs2 : pyEndsWith u.username NO_MEMBER_SUFFIX = false := by
          cases hsx : pyEndsWith u.username NO_MEMBER_SUFFIX with
          | true => exact absurd (ha_rs.mpr ⟨hA, hsx⟩) hrs
          | false => rfl
        simp [has2, hrs, hs2]
    have hf_suf_inact : isContactActive c = false →
        pyEndsWith u2.username NO_MEMBER_SUFFIX = true := by
      intro hA
      rw [hu2def, patched_username]
      have hrs : a.remove_no_member_suffix = false := by
        cases hx : a.remove_no_member_suffix with
        | true => exact absurd ((ha_rs.mp hx).1) (by simp [hA])
        | false => rfl
      by_cases has2 : a.add_no_member_suffix = true
      · simp [has2, hrs, pyEndsWith_append]
      · have hs2 : pyEndsWith u.username NO_MEMBER_SUFFIX = true := by
          cases hsx : pyEndsWith u.username NO_MEMBER_SUFFIX with
          | false => exact absurd (ha_as.mpr ⟨hA, hsx⟩) has2
          | true => rfl
        simp [has2, hrs, hs2]
    have hf_ev : u2.email_verified = true := by
      rw [hu2def, patched_email_verified]
      by_cases hsev : a.set_email_validated = true
      · simp [hsev]
      · have hev : u.email_verified = true := by
          cases he : u.email_verified with
          | false => exact absurd (ha_sev.mpr he) hsev
          | true => rfl
        simp [hsev, hev]
    have hres3 : resolveUser s3 c = some u2 := resolveUser_single s3 c u2 husers3 hf_attr
    have hflags2 : diffFlags g c (some u2) (s3.userGroups u2.id) = noAction := by
      rw [hid2]
      exact flags_clear_core g c u2 (s3.userGroups u.id)
        hf_en_act hf_en_inact hf_email hf_fn hf_ln hf_gr_act hf_gr_inact hf_attr
        hf_suf_act hf_suf_inact hf_ev
    simp [buildQueue, syncOpFor, hres3, hflags2]

/-- C1 witness: a snapshot of one record fully in sync with the single
stored account satisfies the hypotheses, and the second-run queue is
empty. -/
theorem c1_update_path_second_run_empty_witness :
    (contactSynced.personal.is_person = true ∧
     contactSynced.personal.is_organisation = false ∧
     storeSynced.users = [userSynced] ∧
     resolveUser storeSynced contactSynced = some userSynced ∧
     sanitize_username userSynced.username = userSynced.username) ∧
    secondRunQueue "g1" storeSynced [contactSynced] = [] :=
  ⟨⟨by decide, by decide, rfl, by decide, by decide⟩,
   c1_update_path_second_run_empty "g1" contactSynced userSynced storeSynced
     (by decide) (by decide) rfl (by decide) (by decide)⟩

/-- C1 counterexample: an active record with no email is planned for
creation, skipped at execution, and planned again — the second run's
operation set equals the first and is not empty. -/
theorem c1_counterexample_no_email_requeued :
    (secondRunQueue "g1" emptyStore [contactNoEmail]).length = 1 ∧
    secondRunQueue "g1" emptyStore [contactNoEmail] =
      buildQueue "g1" emptyStore (pipelineContacts [contactNoEmail]) :=
  ⟨by decide, by decide⟩

/-- C2: for every (record, resolved account) pair processed by the diff
stage, the computed flag set never contains both CREATE and DEACTIVATE. -/
theorem c2_create_deactivate_exclusive (g : String) (c : Contact)
    (kcUser : Option KcUser) (gr : List String) :
    ((diffFlags g c kcUser gr).create && (diffFlags g c kcUser gr).deactivate) = false := by
  cases kcUser with
  | none =>
    rw [dfs_none]
    cases h : isContactActive c <;> simp [createBundle, noAction]
  | some u => simp [dfs_create]

/-- C6: on the create path the collision probe tries the sanitized base
candidate first, then base+"1", base+"2", … in strictly increasing order,
and returns the first candidate for which the identity-store lookup finds
no user. -/
theorem c6_username_probe_first_free (s : Store) (base : String) (fuel n : Nat)
    (hfuel : n < fuel)
    (hfree : findUserByUsername s (candidateUsername base n) = none)
    (htaken : ∀ m, m < n →
      (findUserByUsername s (candidateUsername base m)).isSome = true) :
    probeUsername s base fuel = some (candidateUsername base n) :=
  probeAux_first_free s base fuel 0 n (Nat.zero_le n) (by omega) hfree
    (fun m _ hm2 => htaken m hm2)

/-- C6 witness: when "jdoe" is taken and "jdoe1" is free, the probe chooses
"jdoe1". -/
theorem c6_username_probe_first_free_witness :
    (findUserByUsername storeJdoe (candidateUsername "jdoe" 1) = none ∧
     (∀ m, m < 1 → (findUserByUsername storeJdoe (candidateUsername "jdoe" m)).isSome = true)) ∧
    probeUsername storeJdoe "jdoe" 2 = some "jdoe1" := by
  have htaken : ∀ m, m < 1 →
      (findUserByUsername storeJdoe (candidateUsername "jdoe" m)).isSome = true := by
    intro m hm
    have hm0 : m = 0 := by omega
    subst hm0
    decide
  refine ⟨⟨by decide, htaken⟩, ?_⟩
  have h := c6_username_probe_first_free storeJdoe "jdoe" 2 1 (by decide) (by decide) htaken
  rw [show candidateUsername "jdoe" 1 = "jdoe1" from by decide] at h
  exact h

/-- C7 (amended): an error raised while executing one queued operation is
not caught at the operation boundary — it ends the batch (remaining
operations are not executed) and surfaces only at the run boundary, where
it turns into the "down" heartbeat. -/
theorem c7_error_ends_batch {α σ ε : Type} (exec : α → σ → Except ε σ)
    (a : α) (q : List α) (s : σ) (e : ε) (h : exec a s = Except.error e) :
    runQueueExc exec (a :: q) s = Except.error e ∧
    runSyncHeartbeat exec (a :: q) s = Heartbeat.down := by
  constructor
  · simp [runQueueExc, h]
  · simp [runSyncHeartbeat, runQueueExc, h]

/-- C7 witness: a queue whose first operation fails produces the error
result and the "down" heartbeat. -/
theorem c7_error_ends_batch_witness :
    execLog 0 [] = Except.error 0 ∧
    (runQueueExc execLog [0, 1] [] = Except.error 0 ∧
     runSyncHeartbeat execLog [0, 1] [] = Heartbeat.down) :=
  ⟨rfl, c7_error_ends_batch execLog 0 [1] [] 0 rfl⟩

/-- C7 counterexample: operation 1 alone succeeds and records its effect,
but after operation 0 fails the batch stops — the final result carries no
trace of operation 1, so execution of the remaining operations did not
continue. -/
theorem c7_counterexample_batch_aborts :
    runQueueExc execLog [0, 1] [] = Except.error 0 ∧
    runQueueExc execLog [1] [] = Except.ok [1] :=
  ⟨rfl, rfl⟩

/-- C9: the failing input "jdoe_nomember" ends with the "_nomember" suffix,
equals "jdoe" plus that suffix, and yet the executed username mutation
writes "jd" — `str.rstrip` removes the trailing character *set*, not the
suffix. -/
theorem c9_rstrip_removes_character_set :
    pyEndsWith userNomember.username NO_MEMBER_SUFFIX = true ∧
    "jdoe" ++ NO_MEMBER_SUFFIX = userNomember.username ∧
    pyRstrip userNomember.username NO_MEMBER_SUFFIX = "jd" ∧
    (applyPatch userNomember
      (buildPatch contactSynced ({ remove_no_member_suffix := true } : MemberActions)
        (some (sanitize_username userNomember.username)))).username = "jd" :=
  ⟨by decide, by decide, by decide, by decide⟩

/-! ### Deduplication helper lemmas -/

theorem mapLookup_nil (k : String) : mapLookup [] k = none := rfl

theorem dedupStep_fresh (m : List (String × Contact)) (w : Nat) (c : Contact)
    (hp : c.personal.is_person = true) (ho : c.personal.is_organisation = false)
    (hlk : mapLookup m (emailKey c) = none) :
    dedupStep (m, w) c = (mapInsert m (emailKey c) c, w) := by
  simp [dedupStep, hp, ho, hlk]

theorem dedupStep_keep (m : List (String × Contact)) (w : Nat) (c existing : Contact)
    (cn en : Int)
    (hp : c.personal.is_person = true) (ho : c.personal.is_organisation = false)
    (hlk : mapLookup m (emailKey c) = some existing)
    (hc : c.membership.number_sort = some cn)
    (he : existing.membership.number_sort = some en)
    (hgt : en < cn) :
    dedupStep (m, w) c = (m, w) := by
  simp [dedupStep, hp, ho, hlk, hc, he, hgt]

theorem dedupStep_replace (m : List (String × Contact)) (w : Nat) (c existing : Contact)
    (cn en : Int)
    (hp : c.personal.is_person = true) (ho : c.personal.is_organisation = false)
    (hlk : mapLookup m (emailKey c) = some existing)
    (hc : c.membership.number_sort = some cn)
    (he : existing.membership.number_sort = some en)
    (hng : ¬ en < cn) :
    dedupStep (m, w) c = (mapInsert m (emailKey c) c, w) := by
  simp [dedupStep, hp, ho, hlk, hc, he, hng]

theorem dedupStep_warn (m : List (String × Contact)) (w : Nat) (c existing : Contact)
    (hp : c.personal.is_person = true) (ho : c.personal.is_organisation = false)
    (hlk : mapLookup m (emailKey c) = some existing)
    (hnum : c.membership.number_sort = none ∨ existing.membership.number_sort = none) :
    dedupStep (m, w) c = (m, w + 1) := by
  rcases hnum with hcn | hen
  · simp [dedupStep, hp, ho, hlk, hcn]
  · cases hc2 : c.membership.number_sort with
    | none => simp [dedupStep, hp, ho, hlk, hc2]
    | some v => simp [dedupStep, hp, ho, hlk, hc2, hen]

/-- C3 (amended): for two natural-person records sharing an email with both
membership numbers present and *distinct*, the record with the strictly
lower number is kept whichever order the two records arrive in. (With equal
numbers the later-seen record wins, so order does affect the outcome there —
see the counterexample.) -/
theorem c3_lower_number_kept_order_independent (r1 r2 : Contact) (n1 n2 : Int)
    (hp1 : r1.personal.is_person = true) (ho1 : r1.personal.is_organisation = false)
    (hp2 : r2.personal.is_person = true) (ho2 : r2.personal.is_organisation = false)
    (hkey : emailKey r2 = emailKey r1)
    (h1 : r1.membership.number_sort = some n1) (h2 : r2.membership.number_sort = some n2)
    (hlt : n1 < n2) :
    (dedupContacts [r1, r2]).1 = [(emailKey r1, r1)] ∧
    (dedupContacts [r2, r1]).1 = [(emailKey r1, r1)] := by
  constructor
  · show (dedupStep (dedupStep ([], 0) r1) r2).1 = _
    rw [dedupStep_fresh [] 0 r1 hp1 ho1 (mapLookup_nil _)]
    have hlk : mapLookup (mapInsert [] (emailKey r1) r1) (emailKey r2) = some r1 := by
      rw [hkey]
      simp [mapInsert, mapLookup]
    rw [dedupStep_keep _ 0 r2 r1 n2 n1 hp2 ho2 hlk h2 h1 hlt]
    simp [mapInsert]
  · show (dedupStep (dedupStep ([], 0) r2) r1).1 = _
    rw [dedupStep_fresh [] 0 r2 hp2 ho2 (mapLookup_nil _)]
    have hlk : mapLookup (mapInsert [] (emailKey r2) r2) (emailKey r1) = some r2 := by
      rw [← hkey]
      simp [mapInsert, mapLookup]
    rw [dedupStep_replace _ 0 r1 r2 n1 n2 hp1 ho1 hlk h1 h2 (lt_asymm hlt)]
    simp [mapInsert, hkey]

/-- C3 witness: records with numbers 3 and 7 sharing an email — the
number-3 record is kept in both input orders. -/
theorem c3_lower_number_kept_order_independent_witness :
    ((mkContact "a" (some "e@x") (some 3)).membership.number_sort = some 3 ∧
     (mkContact "b" (some "e@x") (some 7)).membership.number_sort = some 7 ∧
     emailKey (mkContact "b" (some "e@x") (some 7)) =
       emailKey (mkContact "a" (some "e@x") (some 3)) ∧
     (3 : Int) < 7) ∧
    (dedupContacts [mkContact "a" (some "e@x") (some 3),
        mkContact "b" (some "e@x") (some 7)]).1 =
      [(emailKey (mkContact "a" (some "e@x") (some 3)), mkContact "a" (some "e@x") (some 3))] ∧
    (dedupContacts [mkContact "b" (some "e@x") (some 7),
        mkContact "a" (some "e@x") (some 3)]).1 =
      [(emailKey (mkContact "a" (some "e@x") (some 3)), mkContact "a" (some "e@x") (some 3))] :=
  ⟨⟨by decide, by decide, by decide, by decide⟩,
   c3_lower_number_kept_order_independent
     (mkContact "a" (some "e@x") (some 3)) (mkContact "b" (some "e@x") (some 7)) 3 7
     (by decide) (by decide) (by decide) (by decide) (by decide) (by decide) (by decide)
     (by decide)⟩

/-- C3 counterexample: with *equal* membership numbers the record kept
depends on input order (the later-seen record always wins the tie), so the
claimed order-independence fails, and neither record has a strictly lower
number. -/
theorem c3_counterexample_equal_numbers_order_dependent :
    (dedupContacts [mkContact "a" (some "e@x") (some 5),
        mkContact "b" (some "e@x") (some 5)]).1 =
      [("e@x", mkContact "b" (some "e@x") (some 5))] ∧
    (dedupContacts [mkContact "b" (some "e@x") (some 5),
        mkContact "a" (some "e@x") (some 5)]).1 =
      [("e@x", mkContact "a" (some "e@x") (some 5))] :=
  ⟨by decide, by decide⟩

/-- C10 (amended): when two records share an email and exactly one carries a
membership number, the deduplication step keeps the *earlier-seen* record
(whichever of the two it is), counts one warning, and raises no error (the
step is total by construction). -/
theorem c10_missing_number_keeps_earlier_seen (r1 r2 : Contact) (n : Int)
    (hp1 : r1.personal.is_person = true) (ho1 : r1.personal.is_organisation = false)
    (hp2 : r2.personal.is_person = true) (ho2 : r2.personal.is_organisation = false)
    (hkey : emailKey r2 = emailKey r1)
    (hnum : (r1.membership.number_sort = none ∧ r2.membership.number_sort = some n) ∨
            (r1.membership.number_sort = some n ∧ r2.membership.number_sort = none)) :
    (dedupContacts [r1, r2]).1 = [(emailKey r1, r1)] ∧
    (dedupContacts [r1, r2]).2 = 1 := by
  have hfold : dedupContacts [r1, r2] = ([(emailKey r1, r1)], 1) := by
    show dedupStep (dedupStep ([], 0) r1) r2 = _
    rw [dedupStep_fresh [] 0 r1 hp1 ho1 (mapLookup_nil _)]
    have hlk : mapLookup (mapInsert [] (emailKey r1) r1) (emailKey r2) = some r1 := by
      rw [hkey]
      simp [mapInsert, mapLookup]
    have hwarn : r2.membership.number_sort = none ∨ r1.membership.number_sort = none := by
      rcases hnum with ⟨ha, _⟩ | ⟨_, hb⟩
      · exact Or.inr ha
      · exact Or.inl hb
    rw [dedupStep_warn _ 0 r2 r1 hp2 ho2 hlk hwarn]
    simp [mapInsert]
  rw [hfold]
  exact ⟨rfl, rfl⟩

/-- C10 witness: a numberless record seen first and a number-5 record seen
second — the earlier-seen record is kept with one warning. -/
theorem c10_missing_number_keeps_earlier_seen_witness :
    ((mkContact "d1" (some "d@x") none).membership.number_sort = none ∧
     (mkContact "d2" (some "d@x") (some 5)).membership.number_sort = some 5 ∧
     emailKey (mkContact "d2" (some "d@x") (some 5)) =
       emailKey (mkContact "d1" (some "d@x") none)) ∧
    (dedupContacts [mkContact "d1" (some "d@x") none,
        mkContact "d2" (some "d@x") (some 5)]).1 =
      [(emailKey (mkContact "d1" (some "d@x") none), mkContact "d1" (some "d@x") none)] ∧
    (dedupContacts [mkContact "d1" (some "d@x") none,
        mkContact "d2" (some "d@x") (some 5)]).2 = 1 :=
  ⟨⟨by decide, by decide, by decide⟩,
   c10_missing_number_keeps_earlier_seen
     (mkContact "d1" (some "d@x") none) (mkContact "d2" (some "d@x") (some 5)) 5
     (by decide) (by decide) (by decide) (by decide) (by decide)
     (Or.inl ⟨by decide, by decide⟩)⟩

/-- C10 counterexample: when the numberless record arrives first and the
number-5 record second, the record *without* the number is kept — not the
one carrying the membership number as the claim states. -/
theorem c10_counterexample_number_bearing_record_dropped :
    (dedupContacts [mkContact "d1" (some "d@x") none,
        mkContact "d2" (some "d@x") (some 5)]).1 =
      [("d@x", mkContact "d1" (some "d@x") none)] ∧
    (mkContact "d1" (some "d@x") none).membership.number_sort = none ∧
    (mkContact "d2" (some "d@x") (some 5)).membership.number_sort = some 5 :=
  ⟨by decide, by decide, by decide⟩

/-- C4 (amended): every record flagged as not a natural person or as an
organisation is excluded entirely — the deduplication step ignores it, so it
never enters the email-to-record mapping and the pipeline's working set is
unchanged by its presence. (Records with an *absent* email are NOT excluded:
they enter the mapping under the sentinel key "None" — see the
counterexample.) -/
theorem c4_non_person_records_excluded (m : List (String × Contact)) (w : Nat) (c : Contact)
    (pre post : List Contact)
    (h : c.personal.is_person = false ∨ c.personal.is_organisation = true) :
    dedupStep (m, w) c = (m, w) ∧
    pipelineContacts (pre ++ c :: post) = pipelineContacts (pre ++ post) := by
  have hstep : ∀ acc : List (String × Contact) × Nat, dedupStep acc c = acc := by
    intro acc
    rcases h with h1 | h1 <;> simp [dedupStep, h1]
  refine ⟨hstep (m, w), ?_⟩
  unfold pipelineContacts dedupContacts
  rw [List.foldl_append, List.foldl_append, List.foldl_cons, hstep]

/-- C4 witness: an organisation record leaves the map and the working set
untouched. -/
theorem c4_non_person_records_excluded_witness :
    contactOrg.personal.is_organisation = true ∧
    dedupStep ([], 0) contactOrg = ([], 0) ∧
    pipelineContacts ([] ++ contactOrg :: []) = pipelineContacts ([] ++ []) :=
  ⟨by decide,
   (c4_non_person_records_excluded [] 0 contactOrg [] [] (Or.inr (by decide))).1,
   (c4_non_person_records_excluded [] 0 contactOrg [] [] (Or.inr (by decide))).2⟩

/-- C4 counterexample: an active person with an absent email DOES enter the
email-to-record mapping (under the key "None", the string CPython renders
for `None`) and a sync operation is planned for it. -/
theorem c4_counterexample_absent_email_included :
    contactNoEmail.communication.email = none ∧
    mapLookup (dedupContacts [contactNoEmail]).1 "None" = some contactNoEmail ∧
    (buildQueue "g1" emptyStore (pipelineContacts [contactNoEmail])).length = 1 :=
  ⟨rfl, by decide, by decide⟩

/-- C5 (amended): for an existing account the EMAIL flag is set iff the
account's stored email differs from the record's email *lowercased* (only
the record side is lowercased before comparison); when the stored email is
itself lowercase this coincides with case-insensitive comparison, and the
value written when flagged is the record's email lowercased. (A stored
email containing uppercase is flagged even when it matches the record
case-insensitively — see the counterexample.) -/
theorem c5_email_flag_lowercased_comparison (g : String) (c : Contact) (u : KcUser)
    (gr : List String) (eU eC : String)
    (hU : u.email = some eU) (hC : c.communication.email = some eC)
    (hlow : pyLower eU = eU) :
    ((diffFlags g c (some u) gr).update_email = true ↔ pyLower eU ≠ pyLower eC) ∧
    ((diffFlags g c (some u) gr).update_email = true →
      (applyPatch u (buildPatch c (diffFlags g c (some u) gr)
        (some (sanitize_username u.username)))).email = some (pyLower eC)) := by
  constructor
  · rw [dfs_update_email, hU, hC]
    simp only [Option.map_some', ne_eq, Option.some.injEq]
    constructor
    · intro hne h2
      rw [hlow] at h2
      exact hne h2
    · intro hne h2
      apply hne
      rw [hlow]
      exact h2
  · intro hf
    rw [patched_email, if_pos hf, hC]
    rfl

/-- C5 witness: stored lowercase email "old@x.y" against record email
"New@x.y" — the flag is set and the value written is "new@x.y". -/
theorem c5_email_flag_lowercased_comparison_witness :
    (userOldEmail.email = some "old@x.y" ∧
     contactNewEmail.communication.email = some "New@x.y" ∧
     pyLower "old@x.y" = "old@x.y") ∧
    (((diffFlags "g1" contactNewEmail (some userOldEmail) ["g1"]).update_email = true ↔
        pyLower "old@x.y" ≠ pyLower "New@x.y") ∧
     ((diffFlags "g1" contactNewEmail (some userOldEmail) ["g1"]).update_email = true →
       (applyPatch userOldEmail (buildPatch contactNewEmail
         (diffFlags "g1" contactNewEmail (some userOldEmail) ["g1"])
         (some (sanitize_username userOldEmail.username)))).email =
           some (pyLower "New@x.y"))) :=
  ⟨⟨by decide, by decide, by decide⟩,
   c5_email_flag_lowercased_comparison "g1" contactNewEmail userOldEmail ["g1"]
     "old@x.y" "New@x.y" (by decide) (by decide) (by decide)⟩

/-- C5 counterexample: the stored email "A@b.c" and the record email
"a@b.c" differ only by letter case, yet the EMAIL flag IS produced (the code
lowercases only the record side before the comparison). -/
theorem c5_counterexample_uppercase_account_email :
    (diffFlags "g1" contactLowerEmail (some userUpperEmail) ["g1"]).update_email = true ∧
    userUpperEmail.email = some "A@b.c" ∧
    contactLowerEmail.communication.email = some "a@b.c" ∧
    pyLower "A@b.c" = pyLower "a@b.c" :=
  ⟨by decide, by decide, by decide, by decide⟩

/-- C8 (amended): on the update path (with the stored username already
sanitizer-stable) the payload agrees with the account's existing
representation on every top-level field not targeted by a set flag, and the
id-stamp intent writes the campai-id attribute with exactly one value — by
replacing the account's *whole* attributes mapping, so attribute keys other
than campai-id are dropped rather than preserved (see the counterexample). -/
theorem c8_update_patch_frame (c : Contact) (u : KcUser) (a : MemberActions)
    (hsan : sanitize_username u.username = u.username) :
    ((applyPatch u (buildPatch c a (some (sanitize_username u.username)))).id = u.id) ∧
    (a.update_email = false →
      (applyPatch u (buildPatch c a (some (sanitize_username u.username)))).email = u.email) ∧
    (a.update_first_name = false →
      (applyPatch u (buildPatch c a (some (sanitize_username u.username)))).first_name
        = u.first_name) ∧
    (a.update_last_name = false →
      (applyPatch u (buildPatch c a (some (sanitize_username u.username)))).last_name
        = u.last_name) ∧
    (a.activate = false → a.deactivate = false →
      (applyPatch u (buildPatch c a (some (sanitize_username u.username)))).enabled
        = u.enabled) ∧
    (a.set_email_validated = false →
      (applyPatch u (buildPatch c a (some (sanitize_username u.username)))).email_verified
        = u.email_verified) ∧
    (a.add_no_member_suffix = false → a.remove_no_member_suffix = false →
      (applyPatch u (buildPatch c a (some (sanitize_username u.username)))).username
        = u.username) ∧
    (a.add_campai_id = false →
      (applyPatch u (buildPatch c a (some (sanitize_username u.username)))).attributes
        = u.attributes) ∧
    (a.add_campai_id = true →
      (applyPatch u (buildPatch c a (some (sanitize_username u.username)))).attributes
        = [(ATTRIBUTE_CAMPAI_ID, [c.id])]) := by
  rw [hsan]
  refine ⟨patched_id c a (some u.username) u, ?_, ?_, ?_, ?_, ?_, ?_, ?_, ?_⟩
  · intro h
    rw [patched_email]
    simp [h]
  · intro h
    rw [patched_first_name]
    simp [h]
  · intro h
    rw [patched_last_name]
    simp [h]
  · intro h1 h2
    rw [patched_enabled]
    simp [h1, h2]
  · intro h
    rw [patched_email_verified]
    simp [h]
  · intro h1 h2
    rw [patched_username]
    simp [h1, h2]
  · intro h
    rw [patched_attributes]
    simp [h]
  · intro h
    rw [patched_attributes]
    simp [h]

/-- C8 witness: an id-stamp-only update leaves the other top-level fields
unchanged and writes the campai-id attribute with exactly one value. -/
theorem c8_update_patch_frame_witness :
    (sanitize_username userOtherAttr.username = userOtherAttr.username) ∧
    (((applyPatch userOtherAttr (buildPatch (mkContact "c8" (some "a8@x.y") none)
        ({ add_campai_id := true } : MemberActions)
        (some (sanitize_username userOtherAttr.username)))).id = userOtherAttr.id) ∧
     (({ add_campai_id := true } : MemberActions).update_email = false →
       (applyPatch userOtherAttr (buildPatch (mkContact "c8" (some "a8@x.y") none)
         ({ add_campai_id := true } : MemberActions)
         (some (sanitize_username userOtherAttr.username)))).email = userOtherAttr.email) ∧
     (({ add_campai_id := true } : MemberActions).update_first_name = false →
       (applyPatch userOtherAttr (buildPatch (mkContact "c8" (some "a8@x.y") none)
         ({ add_campai_id := true } : MemberActions)
         (some (sanitize_username userOtherAttr.username)))).first_name
           = userOtherAttr.first_name) ∧
     (({ add_campai_id := true } : MemberActions).update_last_name = false →
       (applyPatch userOtherAttr (buildPatch (mkContact "c8" (some "a8@x.y") none)
         ({ add_campai_id := true } : MemberActions)
         (some (sanitize_username userOtherAttr.username)))).last_name
           = userOtherAttr.last_name) ∧
     (({ add_campai_id := true } : MemberActions).activate = false →
      ({ add_campai_id := true } : MemberActions).deactivate = false →
       (applyPatch userOtherAttr (buildPatch (mkContact "c8" (some "a8@x.y") none)
         ({ add_campai_id := true } : MemberActions)
         (some (sanitize_username userOtherAttr.username)))).enabled
           = userOtherAttr.enabled) ∧
     (({ add_campai_id := true } : MemberActions).set_email_validated = false →
       (applyPatch userOtherAttr (buildPatch (mkContact "c8" (some "a8@x.y") none)
         ({ add_campai_id := true } : MemberActions)
         (some (sanitize_username userOtherAttr.username)))).email_verified
           = userOtherAttr.email_verified) ∧
     (({ add_campai_id := true } : MemberActions).add_no_member_suffix = false →
      ({ add_campai_id := true } : MemberActions).remove_no_member_suffix = false →
       (applyPatch userOtherAttr (buildPatch (mkContact "c8" (some "a8@x.y") none)
         ({ add_campai_id := true } : MemberActions)
         (some (sanitize_username userOtherAttr.username)))).username
           = userOtherAttr.username) ∧
     (({ add_campai_id := true } : MemberActions).add_campai_id = false →
       (applyPatch userOtherAttr (buildPatch (mkContact "c8" (some "a8@x.y") none)
         ({ add_campai_id := true } : MemberActions)
         (some (sanitize_username userOtherAttr.username)))).attributes
           = userOtherAttr.attributes) ∧
     (({ add_campai_id := true } : MemberActions).add_campai_id = true →
       (applyPatch userOtherAttr (buildPatch (mkContact "c8" (some "a8@x.y") none)
         ({ add_campai_id := true } : MemberActions)
         (some (sanitize_username userOtherAttr.username)))).attributes
           = [(ATTRIBUTE_CAMPAI_ID, [(mkContact "c8" (some "a8@x.y") none).id])])) :=
  ⟨by decide,
   c8_update_patch_frame (mkContact "c8" (some "a8@x.y") none) userOtherAttr
     ({ add_campai_id := true } : MemberActions) (by decide)⟩

/-- C8 counterexample: the account carries an attribute key "other"; after
an id-stamp update the whole attributes mapping is replaced, so "other" is
gone — the payload does not leave untargeted attribute keys unchanged. -/
theorem c8_counterexample_attributes_replaced :
    getAttr userOtherAttr.attributes "other" = some ["v"] ∧
    (applyPatch userOtherAttr (buildPatch (mkContact "c8" (some "a8@x.y") none)
      ({ add_campai_id := true } : MemberActions)
      (some (sanitize_username userOtherAttr.username)))).attributes
        = [(ATTRIBUTE_CAMPAI_ID, ["c8"])] ∧
    getAttr (applyPatch userOtherAttr (buildPatch (mkContact "c8" (some "a8@x.y") none)
      ({ add_campai_id := true } : MemberActions)
      (some (sanitize_username userOtherAttr.username)))).attributes "other" = none :=
  ⟨by decide, by decide, by decide⟩

end CampaiConnector
